import Mathlib

/-!
Verification of the spotistats authentication/session core and the
playlist-generation pipeline, as a shallow embedding of the TypeScript
sources (src/src/lib/spotify.ts, src/src/lib/ai.ts,
src/src/pages/Playlists.tsx, src/src/pages/Dashboard.tsx and the
AuthContext provider).  Times are epoch milliseconds as integers; network
responses are passed in explicitly so the embedded operations are pure.
-/

namespace Spotistats

/-- StoredAuth (src/src/types/spotify.ts): the persisted token record.
`expiresAt` is epoch millis; `refreshToken` is optional. -/
structure StoredAuth where
  accessToken : String
  refreshToken : Option String
  expiresAt : Int
deriving DecidableEq, Repr

/-- The identity provider's token-endpoint JSON response
(fields used by spotify.ts: access_token, optional refresh_token,
expires_in in seconds). -/
structure TokenResponse where
  access_token : String
  refresh_token : Option String
  expires_in : Int
deriving DecidableEq, Repr

/-- The StoredAuth built by `exchangeCodeForToken` (spotify.ts:92-98) from a
successful token response: `expiresAt = Date.now() + expires_in*1000 - 60000`,
`refreshToken = json.refresh_token ?? fallbackRefreshToken ?? undefined`. -/
def exchangeAuth (now : Int) (json : TokenResponse)
    (fallbackRefreshToken : Option String) : StoredAuth :=
  { accessToken := json.access_token
  , refreshToken := json.refresh_token.orElse (fun _ => fallbackRefreshToken)
  , expiresAt := now + json.expires_in * 1000 - 60000 }

/-- The StoredAuth built by `refreshAccessToken` (spotify.ts:121-127) from a
successful token response: `refreshToken = json.refresh_token ?? tokenToRefresh`. -/
def refreshAuth (now : Int) (json : TokenResponse)
    (tokenToRefresh : String) : StoredAuth :=
  { accessToken := json.access_token
  , refreshToken := some (json.refresh_token.getD tokenToRefresh)
  , expiresAt := now + json.expires_in * 1000 - 60000 }

/-- The two localStorage slots (STORAGE_KEY and VERIFIER_KEY, spotify.ts:12-13). -/
structure Storage where
  auth : Option StoredAuth
  verifier : Option String
deriving DecidableEq, Repr

/-- `clearAuth` (spotify.ts:27-30): removes both persisted keys. -/
def Storage.clearAuth (_ : Storage) : Storage :=
  { auth := none, verifier := none }

/-- `saveAuth` (spotify.ts:24-25): overwrites the STORAGE_KEY slot. -/
def Storage.saveAuth (st : Storage) (a : StoredAuth) : Storage :=
  { st with auth := some a }

/-- Fixed 403 guidance message thrown by `fetchWithToken` (spotify.ts:155-157). -/
def devModeMsg : String :=
  "Tu cuenta no está autorizada para esta app (modo desarrollo en Spotify). Pide al owner que te agregue en Users and Access."

/-- `res.ok` in the fetch API: status in the 2xx range. -/
def httpOk (status : Nat) : Bool :=
  200 ≤ status && status < 300

/-- Error handling of `fetchWithToken` (spotify.ts:132-161), as a function of
the response status and the optional `body.error.message` of the provider's
structured error body.  `.ok ()` models the 2xx path; `.error m` models the
thrown Error's message. -/
def fetchWithTokenResult (status : Nat) (bodyMessage : Option String) :
    Except String Unit :=
  if httpOk status then .ok ()
  else
    let message := bodyMessage.getD ("Error HTTP " ++ toString status)
    if status = 403 then .error devModeMsg
    else .error message

/-- Error handling of `requestWithToken` (spotify.ts:164-189): same message
extraction but no 403 special case; a 204 status is a 2xx success. -/
def requestWithTokenResult (status : Nat) (bodyMessage : Option String) :
    Except String Unit :=
  if httpOk status then .ok ()
  else .error (bodyMessage.getD ("Error HTTP " ++ toString status))

/-- The URI-collection loop of `handleGenerateAndSavePlaylist`
(Playlists.tsx:82-87), with the array `uris` threaded explicitly.  `search`
models `searchFirstTrackUri` (spotify.ts:191-199), which returns the first
hit's URI or null.  After each query the loop breaks once 50 URIs are held. -/
def collectUrisAux (search : String → Option String) :
    List String → List String → List String
  | [], uris => uris
  | q :: rest, uris =>
    let uris' := match search q with
      | some u => uris ++ [u]
      | none => uris
    if 50 ≤ uris'.length then uris' else collectUrisAux search rest uris'

/-- The collected URI list for a plan's queries (Playlists.tsx:82-87). -/
def collectUris (search : String → Option String) (queries : List String) :
    List String :=
  collectUrisAux search queries []

/-- The minimum-match error message of Playlists.tsx:90-92. -/
def minMatchMsg (n : Nat) : String :=
  "Se necesitan al menos 20 canciones; se encontraron " ++ toString n ++
    ". Prueba con un prompt más específico."

/-- The search-and-gate phase of `handleGenerateAndSavePlaylist`
(Playlists.tsx:82-93): collect URIs, then abort when fewer than 20 were
resolved; `.ok uris` models proceeding to playlist creation with `uris`. -/
def assembleGate (search : String → Option String) (queries : List String) :
    Except String (List String) :=
  let uris := collectUris search queries
  if uris.length < 20 then .error (minMatchMsg uris.length)
  else .ok uris

/-- The session status values of the AuthContext provider and of
Dashboard.tsx: "idle" | "authorizing" | "loading" | "ready". -/
inductive AuthStatus where
  | idle
  | authorizing
  | loading
  | ready
deriving DecidableEq, Repr

/-- Environment read by `bootstrapAuth`: the configuration, the browser URL's
`code` parameter, the current time, and the outcomes of the (at most one)
token call and of the profile / dashboard fetches, passed in explicitly.
`exchangeRes`/`refreshRes` are `none` when the provider answers non-2xx.
`profileRes` is the outcome of `fetchWithToken(token, "me")` (in Dashboard it
stands for the whole `loadDashboard` fan-out), carrying the error message on
failure. -/
structure BootstrapEnv where
  clientId : Option String
  urlCode : Option String
  now : Int
  exchangeRes : Option TokenResponse
  refreshRes : Option TokenResponse
  profileRes : Except String Unit
deriving Repr

/-- Result of one `bootstrapAuth` run: final React state, final storage, which
token operations were invoked, and any exception that escaped the async
function (the stored-token branch fetches the profile outside any try/catch). -/
structure BootstrapResult where
  status : AuthStatus
  error : Option String
  accessToken : Option String
  refreshToken : Option String
  storage : Storage
  exchangeAttempted : Bool
  refreshAttempted : Bool
  uncaught : Option String
deriving Repr

/-- `bootstrapAuth` of the AuthContext provider (AuthContext.tsx:105-178):
the missing-clientId guard, then the code+verifier exchange path (always
returning), then the stored-token branch: adopt if unexpired, else refresh
when a refresh token exists; refresh failure clears both storage keys.  The
exchange call passes the in-memory `refreshToken` state, still null during
bootstrap, as the fallback refresh token. -/
def bootstrapAuth (env : BootstrapEnv) (st : Storage) : BootstrapResult :=
  match env.clientId with
  | none =>
    { status := .idle, error := some "Falta configurar VITE_SPOTIFY_CLIENT_ID."
    , accessToken := none, refreshToken := none, storage := st
    , exchangeAttempted := false, refreshAttempted := false, uncaught := none }
  | some _ =>
    match env.urlCode, st.verifier with
    | some _, some _ =>
      match env.exchangeRes with
      | none =>
        { status := .idle
        , error := some "No se pudo intercambiar el código de autorización."
        , accessToken := none, refreshToken := none, storage := st
        , exchangeAttempted := true, refreshAttempted := false, uncaught := none }
      | some json =>
        let auth := exchangeAuth env.now json none
        let st1 := (st.saveAuth auth).saveAuth auth
        match env.profileRes with
        | .ok _ =>
          { status := .ready, error := none
          , accessToken := some auth.accessToken, refreshToken := auth.refreshToken
          , storage := st1
          , exchangeAttempted := true, refreshAttempted := false, uncaught := none }
        | .error e =>
          { status := .idle, error := some e
          , accessToken := some auth.accessToken, refreshToken := auth.refreshToken
          , storage := st1
          , exchangeAttempted := true, refreshAttempted := false, uncaught := none }
    | _, _ =>
      match st.auth with
      | none =>
        { status := .idle, error := none, accessToken := none, refreshToken := none
        , storage := st, exchangeAttempted := false, refreshAttempted := false
        , uncaught := none }
      | some stored =>
        if env.now < stored.expiresAt then
          match env.profileRes with
          | .ok _ =>
            { status := .ready, error := none
            , accessToken := some stored.accessToken
            , refreshToken := stored.refreshToken, storage := st
            , exchangeAttempted := false, refreshAttempted := false
            , uncaught := none }
          | .error e =>
            { status := .idle, error := none
            , accessToken := some stored.accessToken
            , refreshToken := stored.refreshToken, storage := st
            , exchangeAttempted := false, refreshAttempted := false
            , uncaught := some e }
        else
          match stored.refreshToken with
          | none =>
            { status := .idle, error := none, accessToken := none
            , refreshToken := none, storage := st
            , exchangeAttempted := false, refreshAttempted := false
            , uncaught := none }
          | some rt =>
            match env.refreshRes with
            | none =>
              { status := .idle
              , error := some "No se pudo refrescar el token de acceso."
              , accessToken := none, refreshToken := none
              , storage := st.clearAuth
              , exchangeAttempted := false, refreshAttempted := true
              , uncaught := none }
            | some json =>
              let auth := refreshAuth env.now json rt
              let st1 := (st.saveAuth auth).saveAuth auth
              match env.profileRes with
              | .ok _ =>
                { status := .ready, error := none
                , accessToken := some auth.accessToken
                , refreshToken := auth.refreshToken, storage := st1
                , exchangeAttempted := false, refreshAttempted := true
                , uncaught := none }
              | .error e =>
                { status := .idle, error := some e
                , accessToken := some auth.accessToken
                , refreshToken := auth.refreshToken, storage := st1.clearAuth
                , exchangeAttempted := false, refreshAttempted := true
                , uncaught := none }

/-- `bootstrapAuth` of Dashboard.tsx:175-228.  Same branching; differences:
the exchange catch sets only the error (status stays "idle"),
`loadDashboard` sets the status to "ready" both on success and on failure of
the four-way fan-out (Dashboard.tsx:154-157), and the refresh catch clears
storage and sets the error without touching the status. -/
def bootstrapAuthDashboard (env : BootstrapEnv) (st : Storage) : BootstrapResult :=
  match env.clientId with
  | none =>
    { status := .idle, error := some "Falta configurar VITE_SPOTIFY_CLIENT_ID."
    , accessToken := none, refreshToken := none, storage := st
    , exchangeAttempted := false, refreshAttempted := false, uncaught := none }
  | some _ =>
    match env.urlCode, st.verifier with
    | some _, some _ =>
      match env.exchangeRes with
      | none =>
        { status := .idle
        , error := some "No se pudo intercambiar el código de autorización."
        , accessToken := none, refreshToken := none, storage := st
        , exchangeAttempted := true, refreshAttempted := false, uncaught := none }
      | some json =>
        let auth := exchangeAuth env.now json none
        let st1 := (st.saveAuth auth).saveAuth auth
        { status := .ready
        , error := match env.profileRes with
            | .ok _ => none
            | .error e => some e
        , accessToken := some auth.accessToken, refreshToken := auth.refreshToken
        , storage := st1
        , exchangeAttempted := true, refreshAttempted := false, uncaught := none }
    | _, _ =>
      match st.auth with
      | none =>
        { status := .idle, error := none, accessToken := none, refreshToken := none
        , storage := st, exchangeAttempted := false, refreshAttempted := false
        , uncaught := none }
      | some stored =>
        if env.now < stored.expiresAt then
          { status := .ready
          , error := match env.profileRes with
              | .ok _ => none
              | .error e => some e
          , accessToken := some stored.accessToken
          , refreshToken := stored.refreshToken, storage := st
          , exchangeAttempted := false, refreshAttempted := false
          , uncaught := none }
        else
          match stored.refreshToken with
          | none =>
            { status := .idle, error := none, accessToken := none
            , refreshToken := none, storage := st
            , exchangeAttempted := false, refreshAttempted := false
            , uncaught := none }
          | some rt =>
            match env.refreshRes with
            | none =>
              { status := .idle
              , error := some "No se pudo refrescar el token de acceso."
              , accessToken := none, refreshToken := none
              , storage := st.clearAuth
              , exchangeAttempted := false, refreshAttempted := true
              , uncaught := none }
            | some json =>
              let auth := refreshAuth env.now json rt
              let st1 := (st.saveAuth auth).saveAuth auth
              { status := .ready
              , error := match env.profileRes with
                  | .ok _ => none
                  | .error e => some e
              , accessToken := some auth.accessToken
              , refreshToken := auth.refreshToken, storage := st1
              , exchangeAttempted := false, refreshAttempted := true
              , uncaught := none }

/-! PKCE challenge generation (spotify.ts:40-50).  `crypto.subtle.digest`
("SHA-256") and `btoa` are web-platform primitives: they are given executable
models here (SHA-256 per FIPS 180-4, base64 per RFC 4648), over byte lists
with arithmetic mod 2^32. -/

/-- Truncation to a 32-bit word. -/
def w32 (x : Nat) : Nat := x % 4294967296

/-- 32-bit right rotation (argument below 2^32). -/
def rotr32 (n x : Nat) : Nat := w32 ((x >>> n) ||| (x <<< (32 - n)))

def sha256K : List Nat :=
  [1116352408, 1899447441, 3049323471, 3921009573, 961987163,
   1508970993, 2453635748, 2870763221, 3624381080, 310598401,
   607225278, 1426881987, 1925078388, 2162078206, 2614888103,
   3248222580, 3835390401, 4022224774, 264347078, 604807628,
   770255983, 1249150122, 1555081692, 1996064986, 2554220882,
   2821834349, 2952996808, 3210313671, 3336571891, 3584528711,
   113926993, 338241895, 666307205, 773529912, 1294757372,
   1396182291, 1695183700, 1986661051, 2177026350, 2456956037,
   2730485921, 2820302411, 3259730800, 3345764771, 3516065817,
   3600352804, 4094571909, 275423344, 430227734, 506948616,
   659060556, 883997877, 958139571, 1322822218, 1537002063,
   1747873779, 1955562222, 2024104815, 2227730452, 2361852424,
   2428436474, 2756734187, 3204031479, 3329325298]

def sha256H0 : List Nat :=
  [1779033703, 3144134277, 1013904242, 2773480762,
   1359893119, 2600822924, 528734635, 1541459225]

/-- Big-endian byte expansion of `x` into `n` bytes. -/
def beBytes (n x : Nat) : List Nat :=
  (List.range n).map (fun i => (x >>> (8 * (n - 1 - i))) % 256)

/-- SHA-256 message padding: append 0x80, zero bytes to 56 mod 64, then the
bit length as 8 big-endian bytes. -/
def sha256Pad (msg : List Nat) : List Nat :=
  msg ++ [0x80] ++ List.replicate ((119 - msg.length % 64) % 64) 0 ++
    beBytes 8 (msg.length * 8)

/-- Group bytes into big-endian 32-bit words. -/
def toWordsBE : List Nat → List Nat
  | b0 :: b1 :: b2 :: b3 :: rest =>
    ((b0 <<< 24) ||| (b1 <<< 16) ||| (b2 <<< 8) ||| b3) :: toWordsBE rest
  | _ => []

/-- Split a byte list into 64-byte chunks (fuel-bounded so the definition is
structurally recursive; one fuel unit covers one chunk). -/
def chunks64Aux : Nat → List Nat → List (List Nat)
  | 0, _ => []
  | _, [] => []
  | fuel + 1, x :: rest => (x :: rest.take 63) :: chunks64Aux fuel (rest.drop 63)

def chunks64 (l : List Nat) : List (List Nat) :=
  chunks64Aux (l.length + 1) l

def sSigma0 (x : Nat) : Nat := (rotr32 7 x) ^^^ (rotr32 18 x) ^^^ (x >>> 3)
def sSigma1 (x : Nat) : Nat := (rotr32 17 x) ^^^ (rotr32 19 x) ^^^ (x >>> 10)
def bSigma0 (x : Nat) : Nat := (rotr32 2 x) ^^^ (rotr32 13 x) ^^^ (rotr32 22 x)
def bSigma1 (x : Nat) : Nat := (rotr32 6 x) ^^^ (rotr32 11 x) ^^^ (rotr32 25 x)

/-- Message-schedule extension from 16 to 64 words. -/
def sha256Schedule (init : List Nat) : List Nat :=
  (List.range 48).foldl
    (fun w _ =>
      let i := w.length
      w ++ [w32 (w.getD (i - 16) 0 + sSigma0 (w.getD (i - 15) 0) +
        w.getD (i - 7) 0 + sSigma1 (w.getD (i - 2) 0))])
    init

def sha256Ch (e f g : Nat) : Nat := (e &&& f) ^^^ ((e ^^^ 0xffffffff) &&& g)
def sha256Maj (a b c : Nat) : Nat := (a &&& b) ^^^ (a &&& c) ^^^ (b &&& c)

/-- One 64-byte chunk of the SHA-256 compression function. -/
def sha256Compress (h : List Nat) (chunk : List Nat) : List Nat :=
  let w := sha256Schedule (toWordsBE chunk)
  let st := (List.zip sha256K w).foldl
    (fun st kw =>
      match st with
      | [a, b, c, d, e, f, g, hh] =>
        let t1 := w32 (hh + bSigma1 e + sha256Ch e f g + kw.1 + kw.2)
        let t2 := w32 (bSigma0 a + sha256Maj a b c)
        [w32 (t1 + t2), a, b, c, w32 (d + t1), e, f, g]
      | other => other)
    h
  List.zipWith (fun x y => w32 (x + y)) h st

/-- SHA-256 of a byte list, as a 32-byte list (model of
`crypto.subtle.digest("SHA-256", data)`). -/
def sha256 (msg : List Nat) : List Nat :=
  (((chunks64 (sha256Pad msg)).foldl sha256Compress sha256H0).map
    (beBytes 4)).flatten

/-- UTF-8 encoding of one character (model of `TextEncoder.encode`). -/
def utf8EncodeChar (c : Char) : List Nat :=
  let n := c.toNat
  if n < 0x80 then [n]
  else if n < 0x800 then
    [0xC0 ||| (n >>> 6), 0x80 ||| (n &&& 0x3F)]
  else if n < 0x10000 then
    [0xE0 ||| (n >>> 12), 0x80 ||| ((n >>> 6) &&& 0x3F), 0x80 ||| (n &&& 0x3F)]
  else
    [0xF0 ||| (n >>> 18), 0x80 ||| ((n >>> 12) &&& 0x3F),
     0x80 ||| ((n >>> 6) &&& 0x3F), 0x80 ||| (n &&& 0x3F)]

def utf8Encode (s : String) : List Nat :=
  (s.data.map utf8EncodeChar).flatten

def b64Char (n : Nat) : Char :=
  "ABCDEFGHIJKLMNOPQRSTUVWXYZabcdefghijklmnopqrstuvwxyz0123456789+/".data.getD
    n 'A'

/-- Standard base64 of a byte list, with '=' padding (model of
`btoa(String.fromCharCode(...new Uint8Array(input)))`). -/
def base64Chars : List Nat → List Char
  | [] => []
  | [b0] =>
    [b64Char (b0 >>> 2), b64Char ((b0 &&& 3) <<< 4), '=', '=']
  | [b0, b1] =>
    [b64Char (b0 >>> 2), b64Char (((b0 &&& 3) <<< 4) ||| (b1 >>> 4)),
     b64Char ((b1 &&& 15) <<< 2), '=']
  | b0 :: b1 :: b2 :: rest =>
    b64Char (b0 >>> 2) :: b64Char (((b0 &&& 3) <<< 4) ||| (b1 >>> 4)) ::
      b64Char (((b1 &&& 15) <<< 2) ||| (b2 >>> 6)) :: b64Char (b2 &&& 63) ::
      base64Chars rest

/-- Global replacement of one character by another (model of
`String.replace` with a single-character global regex). -/
def replaceChar (a b : Char) (s : String) : String :=
  String.mk (s.data.map (fun c => if c = a then b else c))

/-- Removal of trailing '=' characters (model of `.replace(/=+$/, "")`). -/
def stripTrailingEq (s : String) : String :=
  String.mk ((s.data.reverse.dropWhile (fun c => c = '=')).reverse)

/-- `base64Url` (spotify.ts:40-44): btoa of the bytes, then the three
chained replacements in source order. -/
def base64Url (input : List Nat) : String :=
  stripTrailingEq (replaceChar '/' '_' (replaceChar '+' '-'
    (String.mk (base64Chars input))))

/-- `createChallenge` (spotify.ts:46-50): SHA-256 of the UTF-8 verifier,
base64url-encoded. -/
def createChallenge (verifier : String) : String :=
  base64Url (sha256 (utf8Encode verifier))

/-- The character remapping named by the spec: '+' to '-', '/' to '_'. -/
def b64UrlRemap (c : Char) : Char :=
  if c = '+' then '-' else if c = '/' then '_' else c

/-- Modelled from the spec's words for comparison: "standard base64 with
trailing '=' padding stripped and '+' / '/' remapped to '-' / '_'". -/
def base64UrlSpec (input : List Nat) : String :=
  String.mk ((((base64Chars input).reverse.dropWhile
    (fun c => c = '=')).reverse).map b64UrlRemap)

/-! JSON values and a model of `JSON.parse` (used by ai.ts).  Numeric
literals are kept as their lexeme, since no claim depends on numeric values;
duplicate object keys follow JSON.parse's last-wins rule via `getField`. -/

inductive Json where
  | null
  | bool (b : Bool)
  | num (raw : String)
  | str (s : String)
  | arr (elems : List Json)
  | obj (fields : List (String × Json))

/-- JSON insignificant whitespace (RFC 8259: space, tab, LF, CR). -/
def isJsonWs (c : Char) : Bool :=
  c = ' ' || c = '\t' || c = '\n' || c = '\r'

def skipJsonWs (cs : List Char) : List Char :=
  cs.dropWhile isJsonWs

def hexVal (c : Char) : Option Nat :=
  if '0' ≤ c ∧ c ≤ '9' then some (c.toNat - '0'.toNat)
  else if 'a' ≤ c ∧ c ≤ 'f' then some (c.toNat - 'a'.toNat + 10)
  else if 'A' ≤ c ∧ c ≤ 'F' then some (c.toNat - 'A'.toNat + 10)
  else none

/-- Body of a JSON string literal (after the opening quote), returning the
decoded string and the rest.  Non-scalar \u escapes fall back to the
replacement of `Char.ofNat` (Lean chars cannot hold lone surrogates). -/
def parseStrBody : List Char → List Char → Option (String × List Char)
  | acc, '"' :: rest => some (String.mk acc.reverse, rest)
  | acc, '\\' :: e :: rest =>
    if e = '"' then parseStrBody ('"' :: acc) rest
    else if e = '\\' then parseStrBody ('\\' :: acc) rest
    else if e = '/' then parseStrBody ('/' :: acc) rest
    else if e = 'b' then parseStrBody ('\x08' :: acc) rest
    else if e = 'f' then parseStrBody ('\x0C' :: acc) rest
    else if e = 'n' then parseStrBody ('\n' :: acc) rest
    else if e = 'r' then parseStrBody ('\r' :: acc) rest
    else if e = 't' then parseStrBody ('\t' :: acc) rest
    else if e = 'u' then
      match rest with
      | h1 :: h2 :: h3 :: h4 :: rest' =>
        match hexVal h1, hexVal h2, hexVal h3, hexVal h4 with
        | some a, some b, some c, some d =>
          parseStrBody (Char.ofNat (((a * 16 + b) * 16 + c) * 16 + d) :: acc)
            rest'
        | _, _, _, _ => none
      | _ => none
    else none
  | acc, c :: rest =>
    if c.toNat < 0x20 then none else parseStrBody (c :: acc) rest
  | _, [] => none

/-- Fraction part of a number lexeme: (.[0-9]+)? -/
def parseFracPart : List Char → Option (List Char × List Char)
  | '.' :: d :: rest =>
    if d.isDigit then
      some ('.' :: (d :: rest).takeWhile Char.isDigit,
        (d :: rest).dropWhile Char.isDigit)
    else none
  | ['.'] => none
  | cs => some ([], cs)

/-- Exponent part of a number lexeme: ([eE][+-]?[0-9]+)? -/
def parseExpPart : List Char → Option (List Char × List Char)
  | e :: rest =>
    if e = 'e' ∨ e = 'E' then
      let (es, rest1) := match rest with
        | '+' :: r => (['+'], r)
        | '-' :: r => (['-'], r)
        | _ => ([], rest)
      match rest1 with
      | d :: _ =>
        if d.isDigit then
          some (e :: es ++ rest1.takeWhile Char.isDigit,
            rest1.dropWhile Char.isDigit)
        else none
      | [] => none
    else some ([], e :: rest)
  | [] => some ([], [])

/-- A JSON number lexeme: -?(0|[1-9][0-9]*)(.[0-9]+)?([eE][+-]?[0-9]+)? -/
def parseNumLex (cs : List Char) : Option (String × List Char) :=
  let (sign, cs1) := match cs with
    | '-' :: rest => (['-'], rest)
    | _ => ([], cs)
  let ipart : Option (List Char × List Char) := match cs1 with
    | '0' :: rest => some (['0'], rest)
    | c :: _ =>
      if c.isDigit then
        some (cs1.takeWhile Char.isDigit, cs1.dropWhile Char.isDigit)
      else none
    | [] => none
  match ipart with
  | none => none
  | some (ip, cs2) =>
    match parseFracPart cs2 with
    | none => none
    | some (fp, cs3) =>
      match parseExpPart cs3 with
      | none => none
      | some (ep, cs4) => some (String.mk (sign ++ ip ++ fp ++ ep), cs4)

mutual

/-- One JSON value, by fuel-bounded recursive descent. -/
def parseJsonVal : Nat → List Char → Option (Json × List Char)
  | 0, _ => none
  | fuel + 1, cs =>
    match skipJsonWs cs with
    | [] => none
    | c :: rest =>
      if c = '"' then
        (parseStrBody [] rest).map (fun (s, r) => (Json.str s, r))
      else if c = '[' then
        match skipJsonWs rest with
        | ']' :: rest' => some (Json.arr [], rest')
        | _ => (parseJsonElems fuel rest).map (fun (vs, r) => (Json.arr vs, r))
      else if c = '\x7b' then
        match skipJsonWs rest with
        | '\x7d' :: rest' => some (Json.obj [], rest')
        | _ => (parseJsonFields fuel rest).map (fun (fs, r) => (Json.obj fs, r))
      else if ['n', 'u', 'l', 'l'].isPrefixOf (c :: rest) then
        some (Json.null, (c :: rest).drop 4)
      else if ['t', 'r', 'u', 'e'].isPrefixOf (c :: rest) then
        some (Json.bool true, (c :: rest).drop 4)
      else if ['f', 'a', 'l', 's', 'e'].isPrefixOf (c :: rest) then
        some (Json.bool false, (c :: rest).drop 5)
      else
        (parseNumLex (c :: rest)).map (fun (s, r) => (Json.num s, r))

/-- One-or-more comma-separated array elements, then ']'. -/
def parseJsonElems : Nat → List Char → Option (List Json × List Char)
  | 0, _ => none
  | fuel + 1, cs =>
    match parseJsonVal fuel cs with
    | none => none
    | some (v, rest) =>
      match skipJsonWs rest with
      | ',' :: rest' =>
        (parseJsonElems fuel rest').map (fun (vs, r) => (v :: vs, r))
      | ']' :: rest' => some ([v], rest')
      | _ => none

/-- One-or-more comma-separated object members, then the closing brace. -/
def parseJsonFields : Nat → List Char → Option (List (String × Json) × List Char)
  | 0, _ => none
  | fuel + 1, cs =>
    match skipJsonWs cs with
    | '"' :: rest =>
      match parseStrBody [] rest with
      | none => none
      | some (key, rest1) =>
        match skipJsonWs rest1 with
        | ':' :: rest2 =>
          match parseJsonVal fuel rest2 with
          | none => none
          | some (v, rest3) =>
            match skipJsonWs rest3 with
            | ',' :: rest4 =>
              (parseJsonFields fuel rest4).map
                (fun (fs, r) => ((key, v) :: fs, r))
            | '\x7d' :: rest4 => some ([(key, v)], rest4)
            | _ => none
        | _ => none
    | _ => none

end

/-- Model of `JSON.parse`: a single value surrounded by whitespace.
`none` models a thrown SyntaxError. -/
def jsonParse (s : String) : Option Json :=
  match parseJsonVal (s.data.length + 1) s.data with
  | some (v, rest) => if skipJsonWs rest = [] then some v else none
  | none => none

/-! `parseJsonPlan` (ai.ts:7-19) and the sanitization step of
`generatePlaylistPlan` (ai.ts:91-99). -/

/-- JavaScript regex \s and `String.trim` whitespace (the common subset). -/
def isJsWs (c : Char) : Bool :=
  c = ' ' || c = '\t' || c = '\n' || c = '\r' || c = '\x0B' || c = '\x0C' ||
    c = '\u00A0' || c = '\uFEFF'

/-- Model of JavaScript `String.trim`. -/
def jsTrim (s : String) : String :=
  String.mk (((s.data.dropWhile isJsWs).reverse.dropWhile isJsWs).reverse)

/-- First index at which `pat` occurs in `cs`. -/
def findSubIdx (pat : List Char) : List Char → Option Nat
  | [] => none
  | c :: rest =>
    if pat.isPrefixOf (c :: rest) then some 0
    else (findSubIdx pat rest).map (· + 1)

/-- Case-insensitive ASCII comparison used by the regex's /i flag. -/
def ciPrefix (pat cs : List Char) : Bool :=
  (pat.map Char.toLower).isPrefixOf (cs.map Char.toLower)

def fenceChars : List Char := ['`', '`', '`']

/-- Capture group of `text.match(/` followed by three backticks, then
`(?:json)?\s*([\s\S]*?)` and three closing backticks, `/i)` (ai.ts:11).
The regex matches iff an opening fence is followed (after an optional
case-insensitive "json" tag and greedy whitespace, neither of which can
contain a backtick) by a later closing fence; the lazy group captures up to
the first such closing fence.  Scanning later start positions can never
succeed when the first opening fence finds no closer, since any later
occurrence of three backticks would itself have served as that closer. -/
def fencedBlockCapture (s : String) : Option String :=
  match findSubIdx fenceChars s.data with
  | none => none
  | some i =>
    let afterOpen := s.data.drop (i + 3)
    let afterTag :=
      if ciPrefix ['j', 's', 'o', 'n'] afterOpen then afterOpen.drop 4
      else afterOpen
    let content := afterTag.dropWhile isJsWs
    match findSubIdx fenceChars content with
    | none => none
    | some j => some (String.mk (content.take j))

/-- Model of `text.indexOf(c)` (first occurrence). -/
def firstIdxOf (c : Char) (s : String) : Option Nat :=
  s.data.findIdx? (fun x => x = c)

/-- Model of `text.lastIndexOf(c)` (last occurrence). -/
def lastIdxOf (c : Char) (s : String) : Option Nat :=
  (s.data.reverse.findIdx? (fun x => x = c)).map
    (fun i => s.data.length - 1 - i)

/-- `text.slice(start, end+1)` for the brace scan (ai.ts:16), guarded by
`start !== -1 && end !== -1 && end > start` (ai.ts:15). -/
def braceSpan (s : String) : Option String :=
  match firstIdxOf '\x7b' s, lastIdxOf '\x7d' s with
  | some start, some stop =>
    if start < stop then some (String.mk ((s.data.drop start).take (stop + 1 - start)))
    else none
  | _, _ => none

/-- The two kinds of exception observable from `parseJsonPlan`: a
`SyntaxError` propagating out of a `JSON.parse` call, or an explicitly
constructed `Error` with its message. -/
inductive JsError where
  | syntaxError
  | error (msg : String)
deriving DecidableEq, Repr

def invalidJsonMsg : String := "La IA no devolvió JSON válido."

/-- `parseJsonPlan` (ai.ts:7-19).  Only the first `JSON.parse` sits in a
try/catch; a parse failure on a located fenced block or brace span
propagates as a SyntaxError, and the fatal message is thrown only when no
fenced block and no valid brace span exist. -/
def parseJsonPlan (text : String) : Except JsError Json :=
  match jsonParse text with
  | some j => .ok j
  | none =>
    match fencedBlockCapture text with
    | some captured =>
      match jsonParse (jsTrim captured) with
      | some j => .ok j
      | none => .error .syntaxError
    | none =>
      match braceSpan text with
      | some sub =>
        match jsonParse sub with
        | some j => .ok j
        | none => .error .syntaxError
      | none => .error (.error invalidJsonMsg)

/-- Modelled from the spec: the fallback cascade as the spec words it —
each strategy that fails falls through to the next, and the fatal
invalid-AI-response error is raised only when all three strategies fail. -/
def parseJsonPlanSpec (text : String) : Except JsError Json :=
  match jsonParse text with
  | some j => .ok j
  | none =>
    match (fencedBlockCapture text).bind (fun c => jsonParse (jsTrim c)) with
    | some j => .ok j
    | none =>
      match (braceSpan text).bind jsonParse with
      | some j => .ok j
      | none => .error (.error invalidJsonMsg)

/-- The plan record returned by `generatePlaylistPlan` (ai.ts:95-99).  The
declared TS type says `description?: string`, but at runtime ai.ts:97 passes
whatever parsed value has a `slice` method through unchanged, so an
array-valued `description` survives as an array; the field therefore holds
the JS value (in practice a string or an array, per `sanitizePlan`). -/
structure AiPlaylistPlan where
  name : String
  description : Json
  queries : List String

/-- JS property access `parsed?.name` on a parsed JSON value: only objects
have own properties; duplicate keys follow last-wins. -/
def getField (j : Json) (key : String) : Option Json :=
  match j with
  | .obj fields =>
    ((fields.filter (fun f => f.1 = key)).reverse.head?).map (fun f => f.2)
  | _ => none

/-- Whether a numeric lexeme denotes zero (sign, dot and exponent do not
matter; the mantissa digits must all be '0'). -/
def numLexIsZero (raw : String) : Bool :=
  ((raw.data.takeWhile (fun c => c ≠ 'e' ∧ c ≠ 'E')).filter Char.isDigit).all
    (fun c => c = '0')

/-- JS truthiness of a parsed JSON value. -/
def truthy : Option Json → Bool
  | none => false
  | some .null => false
  | some (.bool b) => b
  | some (.num raw) => !numLexIsZero raw
  | some (.str s) => s ≠ ""
  | some (.arr _) => true
  | some (.obj _) => true

mutual

/-- JS `String(x)` on a parsed JSON value.  Numeric lexemes are kept
verbatim (JS would re-serialize the numeric value — a divergence immaterial
here, where the claims' queries are strings). -/
def jsString : Json → String
  | .null => "null"
  | .bool true => "true"
  | .bool false => "false"
  | .num raw => raw
  | .str s => s
  | .arr elems => String.intercalate "," (jsStringList elems)
  | .obj _ => "[object Object]"

/-- Element coercion inside `Array.prototype.toString`: null becomes "". -/
def jsStringList : List Json → List String
  | [] => []
  | .null :: rest => "" :: jsStringList rest
  | j :: rest => jsString j :: jsStringList rest

end

/-- JS `s.slice(0, n)` on a string. -/
def jsSlice (s : String) (n : Nat) : String :=
  String.mk (s.data.take n)

def invalidPlanMsg : String := "Respuesta IA inválida: falta name/queries."

/-- Validation and sanitization of the parsed plan
(ai.ts:92-99): reject a falsy `name` or a non-array `queries`, then build
`{ name: String(parsed.name).slice(0,80),
   description: (parsed.description ?? "").slice(0,300),
   queries: parsed.queries.map(String).filter(Boolean).slice(0,25) }`.
`(parsed.description ?? "").slice(0,300)` dispatches on the runtime value:
absent/null becomes ""; a string is cut to 300 characters; an array has its
own `Array.prototype.slice` and is cut to 300 ELEMENTS, surviving as an
array; a number, boolean or plain object has no `slice` method and throws a
TypeError, modelled by the sentinel message below. -/
def descSliceErrMsg : String := "TypeError: slice is not a function"

def sanitizePlan (parsed : Json) : Except JsError AiPlaylistPlan :=
  match getField parsed "name", getField parsed "queries" with
  | some nameJ, some (.arr qs) =>
    if truthy (some nameJ) then
      match getField parsed "description" with
      | none =>
        .ok { name := jsSlice (jsString nameJ) 80, description := .str ""
            , queries := ((qs.map jsString).filter (fun q => q ≠ "")).take 25 }
      | some .null =>
        .ok { name := jsSlice (jsString nameJ) 80, description := .str ""
            , queries := ((qs.map jsString).filter (fun q => q ≠ "")).take 25 }
      | some (.str d) =>
        .ok { name := jsSlice (jsString nameJ) 80
            , description := .str (jsSlice d 300)
            , queries := ((qs.map jsString).filter (fun q => q ≠ "")).take 25 }
      | some (.arr es) =>
        .ok { name := jsSlice (jsString nameJ) 80
            , description := .arr (es.take 300)
            , queries := ((qs.map jsString).filter (fun q => q ≠ "")).take 25 }
      | some _ => .error (.error descSliceErrMsg)
    else .error (.error invalidPlanMsg)
  | _, _ => .error (.error invalidPlanMsg)

/-! Theorems. -/

/-- C4: every StoredAuth created by a successful code exchange or token
refresh has `expiresAt` equal to the response time plus the provider's
`expires_in` (seconds, as milliseconds) minus exactly 60000 ms; these two
constructors are the only StoredAuth creation sites in spotify.ts. -/
theorem storedAuth_expiry_margin :
    ∀ (now : Int) (json : TokenResponse) (fb : Option String) (tok : String),
      (exchangeAuth now json fb).expiresAt = now + json.expires_in * 1000 - 60000 ∧
      (refreshAuth now json tok).expiresAt = now + json.expires_in * 1000 - 60000 := by
  intro now json fb tok
  exact ⟨rfl, rfl⟩

/-- C10: a successful token operation never silently drops the refresh
token: when the provider's response omits `refresh_token`,
`refreshAccessToken` stores the token that was just used and
`exchangeCodeForToken` falls back to the caller-supplied one; the stored
`refreshToken` is absent only when neither the response nor the fallback
had one, and the refresh path always stores some refresh token. -/
theorem refresh_token_never_dropped :
    ∀ (now : Int) (json : TokenResponse) (fb : Option String) (tok : String),
      (json.refresh_token = none →
        (refreshAuth now json tok).refreshToken = some tok) ∧
      (json.refresh_token = none →
        (exchangeAuth now json fb).refreshToken = fb) ∧
      ((exchangeAuth now json fb).refreshToken = none ↔
        (json.refresh_token = none ∧ fb = none)) ∧
      (refreshAuth now json tok).refreshToken.isSome = true := by
  intro now json fb tok
  refine ⟨fun h => ?_, fun h => ?_, ?_, ?_⟩
  · simp [refreshAuth, h]
  · simp [exchangeAuth, h, Option.orElse]
  · cases h : json.refresh_token <;> cases fb <;>
      simp [exchangeAuth, h, Option.orElse]
  · simp [refreshAuth]

/-- C10 witness: at a concrete refresh response omitting refresh_token. -/
theorem refresh_token_never_dropped_witness :
    (refreshAuth 0 ⟨"at", none, 3600⟩ "rt").refreshToken = some "rt" ∧
    (exchangeAuth 0 ⟨"at", none, 3600⟩ (some "prev")).refreshToken = some "prev" := by
  have h := refresh_token_never_dropped 0 ⟨"at", none, 3600⟩ (some "prev") "rt"
  exact ⟨h.1 rfl, h.2.1 rfl⟩

/-- C9 counterexample: `requestWithToken` does not special-case 403 — with a
structured error body it surfaces the body message, not the fixed
developer-mode guidance, so "an HTTP 403 response is always translated into
the fixed developer-mode guidance message" fails for this generic
authenticated request. -/
theorem requestWithToken_403_counterexample :
    requestWithTokenResult 403 (some "Forbidden") = .error "Forbidden" ∧
    "Forbidden" ≠ devModeMsg := by
  constructor
  · rfl
  · decide

/-- C9 amended: for every non-2xx response both generic requests raise the
provider's structured error-body message when present and the
"Error HTTP {status}" fallback otherwise, except that `fetchWithToken`
(and it alone) translates 403 into the fixed developer-mode guidance;
`requestWithToken` applies no 403 special case. -/
theorem http_error_messages :
    ∀ (status : Nat) (body : Option String),
      (httpOk status = false → status = 403 →
        fetchWithTokenResult status body = .error devModeMsg) ∧
      (httpOk status = false → status ≠ 403 →
        fetchWithTokenResult status body =
          .error (body.getD ("Error HTTP " ++ toString status))) ∧
      (httpOk status = false →
        requestWithTokenResult status body =
          .error (body.getD ("Error HTTP " ++ toString status))) ∧
      (httpOk status = true →
        fetchWithTokenResult status body = .ok () ∧
        requestWithTokenResult status body = .ok ()) := by
  intro status body
  refine ⟨fun hok h403 => ?_, fun hok h403 => ?_, fun hok => ?_, fun hok => ?_⟩
  · subst h403
    simp [fetchWithTokenResult, hok]
  · simp [fetchWithTokenResult, hok, h403]
  · simp [requestWithTokenResult, hok]
  · simp [fetchWithTokenResult, requestWithTokenResult, hok]

/-- C9 witness for the amended statement, at statuses 403, 500 and 200. -/
theorem http_error_messages_witness :
    fetchWithTokenResult 403 (some "Forbidden") = .error devModeMsg ∧
    fetchWithTokenResult 500 none = .error "Error HTTP 500" ∧
    requestWithTokenResult 500 none = .error "Error HTTP 500" ∧
    fetchWithTokenResult 200 none = .ok () := by
  refine ⟨(http_error_messages 403 (some "Forbidden")).1 (by decide) rfl, ?_, ?_, ?_⟩
  · exact (http_error_messages 500 none).2.1 (by decide) (by decide)
  · exact (http_error_messages 500 none).2.2.1 (by decide)
  · exact ((http_error_messages 200 none).2.2.2 (by decide)).1

/-- Loop invariant for the URI-collection loop: entered with fewer than 50
URIs held, it returns the first 50 of the held URIs followed by the
per-query resolutions in order, unmatched queries skipped. -/
theorem collectUrisAux_eq (search : String → Option String) :
    ∀ (qs : List String) (uris : List String), uris.length < 50 →
      collectUrisAux search qs uris = (uris ++ qs.filterMap search).take 50 := by
  intro qs
  induction qs with
  | nil =>
    intro uris h
    simp [collectUrisAux, List.take_of_length_le (Nat.le_of_lt h)]
  | cons q rest ih =>
    intro uris h
    simp only [collectUrisAux]
    cases hsq : search q with
    | none =>
      simp only [hsq]
      have hlt : ¬ (50 ≤ uris.length) := Nat.not_le_of_lt h
      simp [hlt, ih uris h, List.filterMap_cons, hsq]
    | some u =>
      simp only [hsq]
      have hcons : List.filterMap search (q :: rest) =
          u :: List.filterMap search rest := by
        simp [List.filterMap_cons, hsq]
      by_cases hfull : 50 ≤ (uris ++ [u]).length
      · have hlen : uris.length = 49 := by
          simp only [List.length_append, List.length_singleton] at hfull
          omega
        rw [if_pos hfull, hcons, List.take_append_eq_append_take,
          List.take_of_length_le (by omega), hlen]
        simp
      · rw [if_neg hfull]
        have h' : (uris ++ [u]).length < 50 := Nat.lt_of_not_le hfull
        rw [ih (uris ++ [u]) h', hcons, List.append_assoc]
        simp

/-- C8: the assembly pipeline's collected URI list is exactly the
per-query resolutions in input order with unmatched queries removed,
truncated at the 50-URI early-stop cap, hence never longer than 50. -/
theorem collectUris_order_cap :
    ∀ (search : String → Option String) (queries : List String),
      collectUris search queries = (queries.filterMap search).take 50 ∧
      (collectUris search queries).length ≤ 50 := by
  intro search queries
  have h := collectUrisAux_eq search queries [] (by simp)
  simp only [List.nil_append] at h
  refine ⟨by simpa [collectUris] using h, ?_⟩
  rw [collectUris, h]
  simp [List.length_take]

/-- C7: when the collected URIs number fewer than 20 the pipeline aborts
with the error naming the actual count and suggesting prompt refinement
(at exactly 19 the message contains "19"); with at least 20 it proceeds to
playlist creation. -/
theorem assemble_min_match_gate :
    ∀ (search : String → Option String) (queries : List String),
      ((collectUris search queries).length < 20 →
        assembleGate search queries =
          .error (minMatchMsg (collectUris search queries).length)) ∧
      ((collectUris search queries).length = 19 →
        ∃ pre suf, minMatchMsg (collectUris search queries).length =
          pre ++ "19" ++ suf) ∧
      (20 ≤ (collectUris search queries).length →
        assembleGate search queries = .ok (collectUris search queries)) := by
  intro search queries
  refine ⟨fun h => ?_, fun h => ?_, fun h => ?_⟩
  · simp [assembleGate, h]
  · rw [h]
    exact ⟨"Se necesitan al menos 20 canciones; se encontraron ",
      ". Prueba con un prompt más específico.", by decide⟩
  · simp [assembleGate, Nat.not_lt_of_le h]

/-- C7 witness: with an all-matching search, 19 queries abort with the
message naming 19 and 20 queries proceed to creation. -/
theorem assemble_min_match_gate_witness :
    assembleGate (fun q => some q) ((List.range 19).map (fun n => toString n)) =
      .error (minMatchMsg 19) ∧
    assembleGate (fun q => some q) ((List.range 20).map (fun n => toString n)) =
      .ok ((List.range 20).map (fun n => toString n)) := by
  have h19 : (collectUris (fun q => some q)
      ((List.range 19).map (fun n => toString n))).length = 19 := by decide
  have h20 : collectUris (fun q => some q)
      ((List.range 20).map (fun n => toString n)) =
      (List.range 20).map (fun n => toString n) := by decide
  constructor
  · have h := (assemble_min_match_gate (fun q => some q)
      ((List.range 19).map (fun n => toString n))).1 (by rw [h19]; omega)
    rw [h19] at h
    exact h
  · have h := (assemble_min_match_gate (fun q => some q)
      ((List.range 20).map (fun n => toString n))).2.2 (by rw [h20]; simp)
    rw [h20] at h
    exact h

/-- C6 counterexample: an array-valued description has its own
`Array.prototype.slice`, so ai.ts:97 succeeds and keeps the array: on a
parsed plan whose description is the one-element array holding a
301-character string, sanitization returns successfully with that array as
the description — not a string truncated to at most 300 characters (its JS
string rendering has 301) — refuting the claim's description clause as
stated. -/
theorem sanitizePlan_description_counterexample :
    sanitizePlan (Json.obj
      [("name", Json.str "X"), ("queries", Json.arr []),
       ("description", Json.arr [Json.str (String.mk (List.replicate 301 'b'))])]) =
      .ok { name := "X"
          , description := Json.arr [Json.str (String.mk (List.replicate 301 'b'))]
          , queries := [] } ∧
    300 < (jsString
      (Json.arr [Json.str (String.mk (List.replicate 301 'b'))])).length := by
  refine ⟨rfl, ?_⟩
  have h1 : jsString (Json.arr [Json.str (String.mk (List.replicate 301 'b'))]) =
      String.mk (List.replicate 301 'b') := rfl
  rw [h1]
  show 300 < (List.replicate 301 'b').length
  rw [List.length_replicate]
  omega

/-- C6 amended: every plan returned by the post-parse sanitization has its
name cut to the first 80 characters (exactly 80 when the parsed name was
longer); its description is either a string of at most 300 characters
(absent/null becomes "", a string is cut to 300 characters) or — when the
parsed description was an array, which has its own slice method — that
array cut to its first 300 elements; empty-string queries are dropped and
the queries list is capped at 25 entries. -/
theorem sanitizePlan_bounds :
    ∀ (parsed : Json) (plan : AiPlaylistPlan), sanitizePlan parsed = .ok plan →
      plan.name.length ≤ 80 ∧
      (∃ nameJ, getField parsed "name" = some nameJ ∧
        plan.name = jsSlice (jsString nameJ) 80 ∧
        (80 < (jsString nameJ).length → plan.name.length = 80)) ∧
      ((∃ d, plan.description = Json.str d ∧ d.length ≤ 300) ∨
       (∃ es, plan.description = Json.arr es ∧ es.length ≤ 300 ∧
         ∃ es0, getField parsed "description" = some (.arr es0) ∧
           es = es0.take 300)) ∧
      (∃ qs, getField parsed "queries" = some (.arr qs) ∧
        plan.queries = ((qs.map jsString).filter (fun q => q ≠ "")).take 25) ∧
      plan.queries.length ≤ 25 ∧ ¬ ("" ∈ plan.queries) := by
  intro parsed plan hok
  have hlen : ∀ (s : String) (n : Nat), (jsSlice s n).length = min n s.length := by
    intro s n
    show (s.data.take n).length = min n s.data.length
    exact List.length_take n s.data
  have hqlen : ∀ (qs : List Json),
      (((qs.map jsString).filter (fun q => q ≠ "")).take 25).length ≤ 25 := by
    intro qs
    simp [List.length_take]
  have hqmem : ∀ (qs : List Json),
      ¬ ("" ∈ ((qs.map jsString).filter (fun q => q ≠ "")).take 25) := by
    intro qs hmem
    have hf := List.take_subset 25 _ hmem
    rw [List.mem_filter] at hf
    exact Bool.noConfusion (show false = true from hf.2)
  unfold sanitizePlan at hok
  cases hname : getField parsed "name" with
  | none => rw [hname] at hok; cases hok
  | some nameJ =>
  rw [hname] at hok
  cases hq : getField parsed "queries" with
  | none => rw [hq] at hok; cases hok
  | some qJ =>
  rw [hq] at hok
  cases qJ with
  | null => cases hok
  | bool b => cases hok
  | num r => cases hok
  | str s => cases hok
  | obj fs => cases hok
  | arr qs =>
  dsimp only at hok
  by_cases ht : truthy (some nameJ) = true
  · rw [if_pos ht] at hok
    cases hd : getField parsed "description" with
    | none =>
      rw [hd] at hok
      cases hok
      refine ⟨by rw [hlen]; omega, ⟨nameJ, rfl, rfl, fun hgt => ?_⟩,
        Or.inl ⟨"", rfl, by simp⟩,
        ⟨qs, rfl, rfl⟩, hqlen qs, hqmem qs⟩
      rw [hlen]; omega
    | some dJ =>
      rw [hd] at hok
      cases dJ with
      | null =>
        cases hok
        refine ⟨by rw [hlen]; omega, ⟨nameJ, rfl, rfl, fun hgt => ?_⟩,
          Or.inl ⟨"", rfl, by simp⟩,
          ⟨qs, rfl, rfl⟩, hqlen qs, hqmem qs⟩
        rw [hlen]; omega
      | str d =>
        cases hok
        refine ⟨by rw [hlen]; omega, ⟨nameJ, rfl, rfl, fun hgt => ?_⟩,
          Or.inl ⟨jsSlice d 300, rfl, by rw [hlen]; omega⟩,
          ⟨qs, rfl, rfl⟩, hqlen qs, hqmem qs⟩
        rw [hlen]; omega
      | arr es =>
        cases hok
        refine ⟨by rw [hlen]; omega, ⟨nameJ, rfl, rfl, fun hgt => ?_⟩,
          Or.inr ⟨es.take 300, rfl, by simp [List.length_take], es, rfl, rfl⟩,
          ⟨qs, rfl, rfl⟩, hqlen qs, hqmem qs⟩
        rw [hlen]; omega
      | bool b => cases hok
      | num r => cases hok
      | obj fs => cases hok
  · rw [if_neg ht] at hok
    cases hok

/-- C6 witness: an 81-character name is cut to exactly 80, a query list
with an empty entry and 26 entries is filtered and capped, and the absent
description becomes the empty string. -/
theorem sanitizePlan_bounds_witness :
    (sanitizePlan (Json.obj
      [("name", Json.str (String.mk (List.replicate 81 'a'))),
       ("queries", Json.arr (Json.str "" ::
         (List.range 26).map (fun n => Json.str (toString n))))]) =
      .ok { name := String.mk (List.replicate 80 'a')
          , description := Json.str ""
          , queries := (List.range 25).map (fun n => toString n) }) ∧
    (String.mk (List.replicate 80 'a')).length = 80 ∧
    ((List.range 25).map (fun n => toString n)).length ≤ 25 ∧
    ¬ ("" ∈ (List.range 25).map (fun n => toString n)) := by
  have hok : sanitizePlan (Json.obj
      [("name", Json.str (String.mk (List.replicate 81 'a'))),
       ("queries", Json.arr (Json.str "" ::
         (List.range 26).map (fun n => Json.str (toString n))))]) =
      .ok { name := String.mk (List.replicate 80 'a')
          , description := Json.str ""
          , queries := (List.range 25).map (fun n => toString n) } := by rfl
  have h := sanitizePlan_bounds _ _ hok
  exact ⟨hok, by decide, h.2.2.2.2.1, h.2.2.2.2.2⟩

/-- C5 counterexample: on the input consisting of a fenced block holding
"x", the code propagates the fenced-block parse failure as a SyntaxError,
while the claimed cascade would fall through to the brace scan and raise
the fatal invalid-AI-response error; the two differ. -/
theorem parseJsonPlan_cascade_counterexample :
    parseJsonPlan "```x```" = .error .syntaxError ∧
    parseJsonPlanSpec "```x```" = .error (.error invalidJsonMsg) ∧
    parseJsonPlan "```x```" ≠ parseJsonPlanSpec "```x```" := by
  have h1 : parseJsonPlan "```x```" = .error .syntaxError := rfl
  have h2 : parseJsonPlanSpec "```x```" = .error (.error invalidJsonMsg) := rfl
  refine ⟨h1, h2, ?_⟩
  rw [h1, h2]
  intro h
  exact absurd (Except.error.inj h) (by decide)

/-- C5 amended: direct parse first; when it fails and a fenced block is
found, the block's content is parsed and a failure there is raised as a
JSON syntax error without attempting the brace scan; the brace scan runs
only when no fenced block is found, its failure likewise raised as a
syntax error; the fatal invalid-AI-response error is raised exactly when
direct parse fails, no fenced block is found and no valid brace span
exists. -/
theorem parseJsonPlan_cascade :
    ∀ text : String,
      (∀ j, jsonParse text = some j → parseJsonPlan text = .ok j) ∧
      (jsonParse text = none → ∀ c, fencedBlockCapture text = some c →
        parseJsonPlan text = (match jsonParse (jsTrim c) with
          | some j => .ok j
          | none => .error .syntaxError)) ∧
      (jsonParse text = none → fencedBlockCapture text = none →
        ∀ sub, braceSpan text = some sub →
          parseJsonPlan text = (match jsonParse sub with
            | some j => .ok j
            | none => .error .syntaxError)) ∧
      (parseJsonPlan text = .error (.error invalidJsonMsg) ↔
        (jsonParse text = none ∧ fencedBlockCapture text = none ∧
          braceSpan text = none)) := by
  intro text
  refine ⟨fun j hj => ?_, fun hd c hc => ?_, fun hd hc sub hs => ?_, ?_⟩
  · simp [parseJsonPlan, hj]
  · simp [parseJsonPlan, hd, hc]
  · simp [parseJsonPlan, hd, hc, hs]
  · constructor
    · intro h
      cases hd : jsonParse text with
      | some j => simp [parseJsonPlan, hd] at h
      | none =>
      cases hc : fencedBlockCapture text with
      | some c =>
        simp only [parseJsonPlan, hd, hc] at h
        cases hcc : jsonParse (jsTrim c) <;> simp [hcc] at h
      | none =>
      cases hs : braceSpan text with
      | some sub =>
        simp only [parseJsonPlan, hd, hc, hs] at h
        cases hss : jsonParse sub <;> simp [hss] at h
      | none => exact ⟨rfl, rfl, rfl⟩
    · rintro ⟨hd, hc, hs⟩
      simp [parseJsonPlan, hd, hc, hs]

/-- C5 witness for the amended statement: a fenced block whose trimmed
content parses is taken by the fenced path; a fatal error occurs exactly
on a braceless, fenceless, non-JSON input. -/
theorem parseJsonPlan_cascade_witness :
    parseJsonPlan "```json [1] ```" = .ok (Json.arr [Json.num "1"]) ∧
    parseJsonPlan "no json here" = .error (.error invalidJsonMsg) := by
  constructor
  · have h := (parseJsonPlan_cascade "```json [1] ```").2.1 rfl "[1] " rfl
    simpa using h
  · exact ((parseJsonPlan_cascade "no json here").2.2.2).mpr ⟨rfl, rfl, rfl⟩

/-- The code's chained global replacements agree pointwise with the spec's
single remapping. -/
theorem replace_chain_eq_remap :
    ((fun c => if c = '/' then '_' else c) ∘ (fun c => if c = '+' then '-' else c)) =
      b64UrlRemap := by
  funext c
  simp only [Function.comp, b64UrlRemap]
  by_cases h1 : c = '+'
  · subst h1; decide
  · by_cases h2 : c = '/'
    · subst h2; decide
    · simp [h1, h2]

/-- The remapping neither produces nor consumes '=': the padding test is
invariant under it. -/
theorem remap_preserves_eq_test :
    ((fun c => decide (c = '=')) ∘ b64UrlRemap) = (fun c => decide (c = '=')) := by
  funext c
  simp only [Function.comp, b64UrlRemap]
  by_cases h1 : c = '+'
  · subst h1; decide
  · by_cases h2 : c = '/'
    · subst h2; decide
    · simp [h1, h2]

/-- The code's base64Url (replace '+', replace '/', strip trailing '=')
computes exactly the spec's base64url (strip padding, remap characters),
for every byte list. -/
theorem base64Url_eq_urlSpec : ∀ l : List Nat, base64Url l = base64UrlSpec l := by
  intro l
  unfold base64Url base64UrlSpec stripTrailingEq replaceChar
  dsimp only
  rw [List.map_map, replace_chain_eq_remap, ← List.map_reverse,
    List.dropWhile_map, remap_preserves_eq_test, ← List.map_reverse]

/-- C3: `createChallenge` computes base64url(sha256(verifier)) in the
spec's sense — standard base64 of the SHA-256 digest with trailing '='
padding stripped and '+'/'/' remapped to '-'/'_' — and it is deterministic,
so recomputing from the same stored verifier reproduces the original
challenge. -/
theorem createChallenge_spec :
    ∀ verifier : String,
      createChallenge verifier = base64UrlSpec (sha256 (utf8Encode verifier)) ∧
      ∀ v, v = verifier → createChallenge v = createChallenge verifier := by
  intro verifier
  exact ⟨base64Url_eq_urlSpec _, fun v hv => by rw [hv]⟩

/-- C3 witness, at the RFC 7636 appendix B verifier. -/
theorem createChallenge_spec_witness :
    createChallenge "dBjftJeZ4CVP-mB92K27uhbUJU1p1r_wW1gFWFOEjXk" =
      base64UrlSpec (sha256 (utf8Encode "dBjftJeZ4CVP-mB92K27uhbUJU1p1r_wW1gFWFOEjXk")) ∧
    createChallenge "dBjftJeZ4CVP-mB92K27uhbUJU1p1r_wW1gFWFOEjXk" =
      createChallenge "dBjftJeZ4CVP-mB92K27uhbUJU1p1r_wW1gFWFOEjXk" := by
  have h := createChallenge_spec "dBjftJeZ4CVP-mB92K27uhbUJU1p1r_wW1gFWFOEjXk"
  exact ⟨h.1, h.2 _ rfl⟩

/-- FIPS 180-4 test vector: SHA-256("abc"), validating the digest model. -/
theorem sha256_abc_vector :
    sha256 (utf8Encode "abc") =
      [0xba, 0x78, 0x16, 0xbf, 0x8f, 0x01, 0xcf, 0xea,
       0x41, 0x41, 0x40, 0xde, 0x5d, 0xae, 0x22, 0x23,
       0xb0, 0x03, 0x61, 0xa3, 0x96, 0x17, 0x7a, 0x9c,
       0xb4, 0x10, 0xff, 0x61, 0xf2, 0x00, 0x15, 0xad] := by
  decide

/-- RFC 7636 appendix B: the S256 challenge of the example verifier,
validating the whole createChallenge pipeline. -/
theorem createChallenge_rfc7636_vector :
    createChallenge "dBjftJeZ4CVP-mB92K27uhbUJU1p1r_wW1gFWFOEjXk" =
      "E9Melhoa2OwvFrEMTJguCHaoeK1t8URWbuGJSstw-cM" := by
  decide

/-- C1: whenever the URL carries a code and a stored PKCE verifier exists
(and a client id is configured), both bootstrap variants take the
code-exchange path and never the refresh path — even when a valid
unexpired stored token also exists — and no run of either variant ever
attempts exchange and refresh together. -/
theorem bootstrap_code_exchange_precedence :
    ∀ (env : BootstrapEnv) (st : Storage),
      (env.clientId.isSome = true → env.urlCode.isSome = true →
        st.verifier.isSome = true →
        (bootstrapAuth env st).exchangeAttempted = true ∧
        (bootstrapAuth env st).refreshAttempted = false ∧
        (bootstrapAuthDashboard env st).exchangeAttempted = true ∧
        (bootstrapAuthDashboard env st).refreshAttempted = false) ∧
      ¬ ((bootstrapAuth env st).exchangeAttempted = true ∧
         (bootstrapAuth env st).refreshAttempted = true) ∧
      ¬ ((bootstrapAuthDashboard env st).exchangeAttempted = true ∧
         (bootstrapAuthDashboard env st).refreshAttempted = true) := by
  intro env st
  obtain ⟨cid, code, now, ex, rf, pr⟩ := env
  obtain ⟨auth, ver⟩ := st
  rcases cid with _ | c
  · simp [bootstrapAuth, bootstrapAuthDashboard]
  · rcases code with _ | co
    · rcases auth with _ | ⟨sat, srt, sexp⟩
      · simp [bootstrapAuth, bootstrapAuthDashboard]
      · by_cases hlt : now < sexp
        · cases pr <;> simp [bootstrapAuth, bootstrapAuthDashboard, hlt]
        · rcases srt with _ | rt
          · simp [bootstrapAuth, bootstrapAuthDashboard, hlt]
          · rcases rf with _ | j
            · simp [bootstrapAuth, bootstrapAuthDashboard, hlt]
            · cases pr <;> simp [bootstrapAuth, bootstrapAuthDashboard, hlt]
    · rcases ver with _ | v
      · rcases auth with _ | ⟨sat, srt, sexp⟩
        · simp [bootstrapAuth, bootstrapAuthDashboard]
        · by_cases hlt : now < sexp
          · cases pr <;> simp [bootstrapAuth, bootstrapAuthDashboard, hlt]
          · rcases srt with _ | rt
            · simp [bootstrapAuth, bootstrapAuthDashboard, hlt]
            · rcases rf with _ | j
              · simp [bootstrapAuth, bootstrapAuthDashboard, hlt]
              · cases pr <;> simp [bootstrapAuth, bootstrapAuthDashboard, hlt]
      · rcases ex with _ | j
        · simp [bootstrapAuth, bootstrapAuthDashboard]
        · cases pr <;> simp [bootstrapAuth, bootstrapAuthDashboard]

/-- C1 witness: with a code, a stored verifier AND a valid unexpired stored
token, both variants exchange and do not refresh. -/
theorem bootstrap_code_exchange_precedence_witness :
    (bootstrapAuth
        ⟨some "cid", some "code", 1000, some ⟨"at", some "rt", 3600⟩, none, .ok ()⟩
        ⟨some ⟨"old", some "ort", 2000000⟩, some "ver"⟩).exchangeAttempted = true ∧
    (bootstrapAuth
        ⟨some "cid", some "code", 1000, some ⟨"at", some "rt", 3600⟩, none, .ok ()⟩
        ⟨some ⟨"old", some "ort", 2000000⟩, some "ver"⟩).refreshAttempted = false ∧
    (bootstrapAuthDashboard
        ⟨some "cid", some "code", 1000, some ⟨"at", some "rt", 3600⟩, none, .ok ()⟩
        ⟨some ⟨"old", some "ort", 2000000⟩, some "ver"⟩).exchangeAttempted = true ∧
    (bootstrapAuthDashboard
        ⟨some "cid", some "code", 1000, some ⟨"at", some "rt", 3600⟩, none, .ok ()⟩
        ⟨some ⟨"old", some "ort", 2000000⟩, some "ver"⟩).refreshAttempted = false :=
  (bootstrap_code_exchange_precedence
    ⟨some "cid", some "code", 1000, some ⟨"at", some "rt", 3600⟩, none, .ok ()⟩
    ⟨some ⟨"old", some "ort", 2000000⟩, some "ver"⟩).1 rfl rfl rfl

/-- C2: when initialization reaches a stored token that is expired with a
refresh token present (configured client id, no code-exchange path), the
refresh is invoked and the run ends in exactly one of two outcomes: status
ready with a new unexpired token persisted, or status idle with both
persisted keys cleared and an error surfaced; when the provider rejects
the refresh the second outcome holds, with the refresh error message.  The
unexpired-ness of the new token uses the provider granting more than the
60-second safety margin (the hypothesis on expires_in). -/
theorem bootstrap_refresh_cascade :
    ∀ (env : BootstrapEnv) (st : Storage) (stored : StoredAuth) (rt : String),
      env.clientId.isSome = true →
      (env.urlCode = none ∨ st.verifier = none) →
      st.auth = some stored →
      stored.expiresAt ≤ env.now →
      stored.refreshToken = some rt →
      (∀ j, env.refreshRes = some j → 60 < j.expires_in) →
      (bootstrapAuth env st).refreshAttempted = true ∧
      (((bootstrapAuth env st).status = .ready ∧
        (∃ j, env.refreshRes = some j ∧
          (bootstrapAuth env st).storage.auth = some (refreshAuth env.now j rt) ∧
          env.now < (refreshAuth env.now j rt).expiresAt)) ∨
       ((bootstrapAuth env st).status = .idle ∧
        (bootstrapAuth env st).storage.auth = none ∧
        (bootstrapAuth env st).storage.verifier = none ∧
        (bootstrapAuth env st).error.isSome = true)) ∧
      (env.refreshRes = none →
        ((bootstrapAuth env st).status = .idle ∧
         (bootstrapAuth env st).storage.auth = none ∧
         (bootstrapAuth env st).storage.verifier = none ∧
         (bootstrapAuth env st).error =
           some "No se pudo refrescar el token de acceso.")) := by
  intro env st stored rt hcid hnoex hauth hexp hrt hfresh
  obtain ⟨cid, code, now, ex, rf, pr⟩ := env
  obtain ⟨auth, ver⟩ := st
  dsimp only at hcid hnoex hauth hexp hrt hfresh ⊢
  subst hauth
  obtain ⟨sat, srt, sexp⟩ := stored
  dsimp only at hexp hrt
  subst hrt
  have hlt : ¬ (now < sexp) := by omega
  rcases cid with _ | c
  · simp at hcid
  · rcases code with _ | co
    · rcases rf with _ | j
      · refine ⟨?_, Or.inr ⟨?_, ?_, ?_, ?_⟩, fun _ => ⟨?_, ?_, ?_, ?_⟩⟩ <;>
          simp [bootstrapAuth, hlt, Storage.clearAuth]
      · have hj : 60 < j.expires_in := hfresh j rfl
        rcases pr with e | u
        · refine ⟨?_, Or.inr ⟨?_, ?_, ?_, ?_⟩, fun hnone => by cases hnone⟩ <;>
            simp [bootstrapAuth, hlt, Storage.clearAuth]
        · refine ⟨?_, Or.inl ⟨?_, ⟨j, rfl, ?_, ?_⟩⟩, fun hnone => by cases hnone⟩ <;>
            simp [bootstrapAuth, hlt, Storage.saveAuth, refreshAuth]
          omega
    · rcases ver with _ | v
      · rcases rf with _ | j
        · refine ⟨?_, Or.inr ⟨?_, ?_, ?_, ?_⟩, fun _ => ⟨?_, ?_, ?_, ?_⟩⟩ <;>
            simp [bootstrapAuth, hlt, Storage.clearAuth]
        · have hj : 60 < j.expires_in := hfresh j rfl
          rcases pr with e | u
          · refine ⟨?_, Or.inr ⟨?_, ?_, ?_, ?_⟩, fun hnone => by cases hnone⟩ <;>
              simp [bootstrapAuth, hlt, Storage.clearAuth]
          · refine ⟨?_, Or.inl ⟨?_, ⟨j, rfl, ?_, ?_⟩⟩, fun hnone => by cases hnone⟩ <;>
              simp [bootstrapAuth, hlt, Storage.saveAuth, refreshAuth]
            omega
      · rcases hnoex with h | h <;> cases h

/-- C2 witness: a concrete expired stored token with refresh token, where
the provider grants a fresh one-hour token and the profile fetch
succeeds. -/
theorem bootstrap_refresh_cascade_witness :
    (bootstrapAuth
        ⟨some "cid", none, 10000000, none, some ⟨"newat", none, 3600⟩, .ok ()⟩
        ⟨some ⟨"old", some "rt", 500⟩, none⟩).refreshAttempted = true ∧
    (((bootstrapAuth
        ⟨some "cid", none, 10000000, none, some ⟨"newat", none, 3600⟩, .ok ()⟩
        ⟨some ⟨"old", some "rt", 500⟩, none⟩).status = .ready ∧
      (∃ j, (some (⟨"newat", none, 3600⟩ : TokenResponse) : Option TokenResponse) = some j ∧
        (bootstrapAuth
          ⟨some "cid", none, 10000000, none, some ⟨"newat", none, 3600⟩, .ok ()⟩
          ⟨some ⟨"old", some "rt", 500⟩, none⟩).storage.auth =
            some (refreshAuth 10000000 j "rt") ∧
        (10000000 : Int) < (refreshAuth 10000000 j "rt").expiresAt)) ∨
     ((bootstrapAuth
        ⟨some "cid", none, 10000000, none, some ⟨"newat", none, 3600⟩, .ok ()⟩
        ⟨some ⟨"old", some "rt", 500⟩, none⟩).status = .idle ∧
      (bootstrapAuth
        ⟨some "cid", none, 10000000, none, some ⟨"newat", none, 3600⟩, .ok ()⟩
        ⟨some ⟨"old", some "rt", 500⟩, none⟩).storage.auth = none ∧
      (bootstrapAuth
        ⟨some "cid", none, 10000000, none, some ⟨"newat", none, 3600⟩, .ok ()⟩
        ⟨some ⟨"old", some "rt", 500⟩, none⟩).storage.verifier = none ∧
      (bootstrapAuth
        ⟨some "cid", none, 10000000, none, some ⟨"newat", none, 3600⟩, .ok ()⟩
        ⟨some ⟨"old", some "rt", 500⟩, none⟩).error.isSome = true)) := by
  have h := bootstrap_refresh_cascade
    ⟨some "cid", none, 10000000, none, some ⟨"newat", none, 3600⟩, .ok ()⟩
    ⟨some ⟨"old", some "rt", 500⟩, none⟩ ⟨"old", some "rt", 500⟩ "rt"
    rfl (Or.inl rfl) rfl (by decide) rfl (fun j hj => by cases hj; decide)
  exact ⟨h.1, h.2.1⟩

end Spotistats
